import Mathlib

set_option autoImplicit false

/-!
Shallow embedding of the variable resolution & transformation engine of the
command-snippets repository (Go package `models`: `ProcessTemplate`,
`processVariable`, `Validate`, `ValidateWithConfig`), together with theorems
settling the specification claims about it.

Go maps are modelled as association lists; Go's `text/template` and `regexp`
standard-library packages, which are not part of the repository, are modelled
as abstract executable interfaces (`TemplateEngine`, `RegexOracle`) over which
the theorems quantify.
-/

namespace CmdSnippets

/-- Model of a Go `map[string]α` as an association list; `lookupMap m k` models
map indexing, returning `none` for an absent key. -/
def lookupMap {α : Type} : List (String × α) → String → Option α
  | [], _ => none
  | (k, v) :: rest, key => if k = key then some v else lookupMap rest key

/-- Go map indexing on a `map[string]string` with the zero-value convention:
`values[name]` yields the empty string when the key is absent. -/
def lookupStr (m : List (String × String)) (key : String) : String :=
  (lookupMap m key).getD ""

/-- Boolean test that `pat` is a prefix of `s` (character lists). -/
def startsWithL : List Char → List Char → Bool
  | [], _ => true
  | _ :: _, [] => false
  | p :: ps, c :: cs => p == c && startsWithL ps cs

/-- Fuel-indexed worker for `replaceAll`; the fuel is the length of the scanned
list, so the `0, s => s` arm is never reached on the initial call. Matches the
left-to-right, non-overlapping semantics of Go `strings.ReplaceAll`: after a
match the replacement is emitted and scanning resumes after the matched
segment (the replacement itself is never rescanned). -/
def replaceFuel (pat rep : List Char) : Nat → List Char → List Char
  | _, [] => []
  | 0, s => s
  | fuel + 1, c :: rest =>
    if startsWithL pat (c :: rest) then
      rep ++ replaceFuel pat rep fuel (List.drop (pat.length - 1) rest)
    else
      c :: replaceFuel pat rep fuel rest

/-- Model of Go `strings.ReplaceAll(s, pat, rep)` for nonempty `pat` (the
engine only ever replaces placeholders of the form `<name>`, which are never
empty, so the empty-pattern corner of the Go function is not modelled). -/
def replaceAll (s pat rep : String) : String :=
  String.mk (replaceFuel pat.data rep.data s.data.length s.data)

/-- Go struct `Transform` (conditional transformation rule set). -/
structure Transform where
  emptyValue : String := ""
  valuePattern : String := ""
  trueValue : String := ""
  falseValue : String := ""
  compose : String := ""
  deriving DecidableEq, Repr

/-- Go struct `Validation` (variable validation rules). -/
structure Validation where
  pattern : String := ""
  enum : List String := []
  range : List Int := []
  deriving DecidableEq, Repr

/-- Go struct `Variable`. The YAML-only `description` field is kept for
completeness; the engine never reads it. -/
structure Variable where
  name : String := ""
  description : String := ""
  defaultValue : String := ""
  required : Bool := false
  type : String := ""
  transform : Option Transform := none
  transformTemplate : String := ""
  validation : Option Validation := none
  computed : Bool := false
  deriving DecidableEq, Repr

/-- Go struct `TransformTemplate` (a reusable named transform). -/
structure TransformTemplate where
  description : String := ""
  transform : Option Transform := none
  deriving DecidableEq, Repr

/-- Go struct `VariableType` (a reusable named bundle of default, validation
and transform). -/
structure VariableType where
  description : String := ""
  validation : Option Validation := none
  defaultValue : String := ""
  transform : Option Transform := none
  deriving DecidableEq, Repr

/-- Go struct `Snippet`. The timestamps and the load-source marker are not
read by the engine and are omitted. -/
structure Snippet where
  id : String := ""
  name : String := ""
  description : String := ""
  command : String := ""
  vars : List Variable := []
  tags : List String := []
  deriving DecidableEq, Repr

/-- Go struct `Config`, restricted to the fields the engine reads (the
`Settings` block is never consulted by resolution or validation). -/
structure Config where
  transformTemplates : List (String × TransformTemplate) := []
  variableTypes : List (String × VariableType) := []
  snippets : List (String × Snippet) := []

/-- Engine errors. Go returns `error` values built with `fmt.Errorf`; each
distinct failure shape is one constructor, carrying the variable or template
name the Go message attaches. `processingVariable` models the
`"processing variable %s: %w"` wrapping done by `ProcessTemplate`. -/
inductive PErr where
  | transformTemplateNotFound (tmpl : String)
  | templateError (msg : String)
  | processingVariable (name : String) (e : PErr)
  | requiredMissing (name : String)
  | enumMismatch (name : String) (allowed : List String)
  | notANumber (name : String)
  | rangeInvalid (name : String) (lo hi : Int)
  | patternMismatch (name : String)
  | invalidPattern (name : String)
  | invalidRegexValue (name : String)
  deriving DecidableEq, Repr

/-- Abstract interface to Go's `text/template` (not repository code):
`render tmpl data` parses `tmpl` and executes it against the string map
`data`, returning the rendered text or an error message. Parse errors and
execute errors are propagated identically by the Go code, so one `Except`
covers both. -/
structure TemplateEngine where
  render : String → List (String × String) → Except String String

/-- Abstract interface to Go's `regexp` package (not repository code):
`matchString pat s` is `none` when `pat` does not compile, otherwise `some` of
the `regexp.MatchString` result; `compileOk pat` is whether `pat` compiles
(`regexp.Compile`). -/
structure RegexOracle where
  matchString : String → String → Option Bool
  compileOk : String → Bool

/-- Template engine for literal templates: a template containing no directive
renders to itself under Go's `text/template`. Used to instantiate theorems at
concrete inputs whose template strings contain no directives. -/
def litEngine : TemplateEngine := ⟨fun tmpl _ => .ok tmpl⟩

/-- Regex oracle used to instantiate theorems at concrete inputs whose regex
rules are never consulted. -/
def trivOracle : RegexOracle := ⟨fun _ _ => some true, fun _ => true⟩

/-- Transform-resolution block at the top of Go `processVariable`
(lines choosing between `variable.TransformTemplate` and
`variable.Transform`): a nonempty named reference is looked up in
`config.TransformTemplates` and its absence is a fatal error, with no
fallback to the inline transform; otherwise the inline transform (possibly
absent) is used. -/
def resolveTransform (v : Variable) (cfg : Config) : Except PErr (Option Transform) :=
  if v.transformTemplate ≠ "" then
    match lookupMap cfg.transformTemplates v.transformTemplate with
    | some tmplDef => .ok tmplDef.transform
    | none => .error (.transformTemplateNotFound v.transformTemplate)
  else
    .ok v.transform

/-- Go `(*Snippet).processVariable` (the snippet receiver is unused by the Go
code and is dropped). After transform resolution: the computed/compose branch,
then (when a transform is present) the boolean branch, the empty-value branch,
the value-pattern branch; finally the shared tail returning the default value
for an empty raw value and the raw value otherwise. -/
def processVariable (E : TemplateEngine) (v : Variable) (value : String)
    (allValues : List (String × String)) (cfg : Config) : Except PErr String :=
  match resolveTransform v cfg with
  | .error e => .error e
  | .ok none =>
    if value = "" then .ok v.defaultValue else .ok value
  | .ok (some t) =>
    if v.computed = true ∧ t.compose ≠ "" then
      match E.render t.compose allValues with
      | .error msg => .error (.templateError msg)
      | .ok r => .ok r
    else if v.type = "boolean" then
      .ok (if value = "true" ∨ value = "yes" ∨ value = "1" then t.trueValue else t.falseValue)
    else if value = "" ∧ t.emptyValue ≠ "" then
      .ok t.emptyValue
    else if value ≠ "" ∧ t.valuePattern ≠ "" then
      match E.render t.valuePattern [("Value", value)] with
      | .error msg => .error (.templateError msg)
      | .ok r => .ok r
    else if value = "" then
      .ok v.defaultValue
    else
      .ok value

/-- The placeholder literal `<name>` substituted in command templates. -/
def placeholder (name : String) : String := "<" ++ name ++ ">"

/-- The loop body of Go `ProcessTemplate`: walk the variables in declared
order, look up each raw value (absent key is the empty string), resolve it,
and replace every occurrence of the placeholder in the working command. -/
def substLoop (E : TemplateEngine) (values : List (String × String)) (cfg : Config) :
    String → List Variable → Except PErr String
  | command, [] => .ok command
  | command, v :: rest =>
    match processVariable E v (lookupStr values v.name) values cfg with
    | .error e => .error (.processingVariable v.name e)
    | .ok pv => substLoop E values cfg (replaceAll command (placeholder v.name) pv) rest

/-- Go `(*Snippet).ProcessTemplate`. -/
def ProcessTemplate (E : TemplateEngine) (s : Snippet) (values : List (String × String))
    (cfg : Config) : Except PErr String :=
  substLoop E values cfg s.command s.vars

/-- Decimal-digit scan: `none` when the list does not start with a digit,
otherwise the value of the maximal digit prefix. -/
def digitsVal (cs : List Char) : Option Nat :=
  match cs.takeWhile Char.isDigit with
  | [] => none
  | ds => some (ds.foldl (fun a c => a * 10 + (c.toNat - 48)) 0)

/-- The whitespace table of Go's fmt scanner (`isSpace` in fmt/scan.go):
0x09-0x0d, space, and the Unicode space code points the scanner lists. -/
def goIsSpace (c : Char) : Bool :=
  (0x09 ≤ c.toNat && c.toNat ≤ 0x0d) || c.toNat == 0x20 || c.toNat == 0x85 ||
    c.toNat == 0xa0 || c.toNat == 0x1680 || (0x2000 ≤ c.toNat && c.toNat ≤ 0x200a) ||
    c.toNat == 0x2028 || c.toNat == 0x2029 || c.toNat == 0x202f || c.toNat == 0x205f ||
    c.toNat == 0x3000

/-- Model of the fmt scanner's `SkipSpace` in the `Sscanf` mode, where a
newline is not space: leading space runes are consumed; a newline — or a
carriage return directly followed by a newline — is the fatal
"unexpected newline" error, modelled as `none`; a lone carriage return is
ordinary space. -/
def skipSpaceGo : List Char → Option (List Char)
  | [] => some []
  | c :: rest =>
    if c = '\r' then
      match rest with
      | c2 :: _ => if c2 = '\n' then none else skipSpaceGo rest
      | [] => some []
    else if c = '\n' then none
    else if goIsSpace c then skipSpaceGo rest
    else some (c :: rest)

/-- Model of `fmt.Sscanf(value, "%d", &num)` where `num` is Go's 64-bit
`int`: skip leading scanner whitespace (a newline is fatal in `Sscanf`
mode), read an optional sign and a nonempty run of decimal digits, and
require the signed result to fit in a 64-bit integer — the scanner hands the
digit token to `strconv.ParseInt(tok, 10, 64)`, which reports overflow as an
error. Input after the digits is ignored because `Sscanf` does not require
the whole string to be consumed. `none` models a scan error. -/
def scanInt (s : String) : Option Int :=
  match skipSpaceGo s.data with
  | none => none
  | some cs =>
    let signed : Option Int :=
      match cs with
      | '-' :: rest => (digitsVal rest).map (fun n => -(n : Int))
      | '+' :: rest => (digitsVal rest).map (fun n => (n : Int))
      | rest => (digitsVal rest).map (fun n => (n : Int))
    match signed with
    | none => none
    | some n =>
      if -9223372036854775808 ≤ n ∧ n ≤ 9223372036854775807 then some n else none

/-- The numeric-range block of Go `Validate`: applies only when the range has
exactly two elements and the value is nonempty; a scan failure is the
not-a-number error, an out-of-bounds value the range error. On success Go
falls through to the pattern block, so this step is sequenced before it. -/
def rangeStep (v : Variable) (val : Validation) (value : String) : Except PErr Unit :=
  match val.range with
  | [lo, hi] =>
    if value ≠ "" then
      match scanInt value with
      | none => .error (.notANumber v.name)
      | some n => if n < lo ∨ hi < n then .error (.rangeInvalid v.name lo hi) else .ok ()
    else .ok ()
  | _ => .ok ()

/-- The regex-pattern block of Go `Validate`: applies only when a pattern is
declared and the value is nonempty; a compile failure of the declared pattern
and a non-match are distinct errors. -/
def patternStep (R : RegexOracle) (v : Variable) (val : Validation) (value : String) :
    Except PErr Unit :=
  if val.pattern ≠ "" ∧ value ≠ "" then
    match R.matchString val.pattern value with
    | none => .error (.invalidPattern v.name)
    | some true => .ok ()
    | some false => .error (.patternMismatch v.name)
  else .ok ()

/-- Go `(*Variable).Validate`: the required check first, then — when rules are
present — the enum block, which returns in both the match and the mismatch
case and therefore short-circuits the range and pattern blocks; with an empty
enum the range block runs and, on success, falls through to the pattern
block. `.ok ()` models the Go `nil` return. -/
def Validate (R : RegexOracle) (v : Variable) (value : String) : Except PErr Unit :=
  if v.required = true ∧ value = "" then .error (.requiredMissing v.name)
  else
    match v.validation with
    | none => .ok ()
    | some val =>
      if val.enum ≠ [] then
        if value ∈ val.enum then .ok () else .error (.enumMismatch v.name val.enum)
      else
        match rangeStep v val value with
        | .error e => .error e
        | .ok _ => patternStep R v val value

/-- Go `(*Variable).ValidateWithConfig`: local validation first; empty values
then return immediately; type `regex` requires the value itself to compile
and skips the type lookup; otherwise a named type with validation rules is
checked as a second, independent `Validate` pass on a fresh variable carrying
only the type's rules. (The Go `config != nil` guard is dropped: the config
is always supplied here.) -/
def ValidateWithConfig (R : RegexOracle) (v : Variable) (value : String) (cfg : Config) :
    Except PErr Unit :=
  match Validate R v value with
  | .error e => .error e
  | .ok _ =>
    if value = "" then .ok ()
    else if v.type = "regex" then
      if R.compileOk value then .ok () else .error (.invalidRegexValue v.name)
    else if v.type ≠ "" then
      match lookupMap cfg.variableTypes v.type with
      | some vt =>
        match vt.validation with
        | some tval => Validate R { name := v.name, type := v.type, validation := some tval } value
        | none => .ok ()
      | none => .ok ()
    else .ok ()

/-! Concrete instances used by counterexamples and witnesses. -/

/-- An empty configuration (no named transforms, no variable types). -/
def cfg0 : Config := {}

/-- Variable with a default value and an inline transform whose `empty_value`
field is empty (only `value_pattern` is set). -/
def c1Var : Variable :=
  { name := "x", defaultValue := "fallback", transform := some { valuePattern := "vp" } }

/-- Boolean-typed variable with no transform at all. -/
def boolVar : Variable := { name := "b", type := "boolean" }

/-- Boolean-typed variable with an inline transform. -/
def boolTVar : Variable :=
  { name := "b", type := "boolean", transform := some { trueValue := "-v", falseValue := "" } }

/-- Variable with no transform and no validation. -/
def plainVar : Variable := { name := "n" }

/-- Variable referencing a named transform absent from `cfg0`, while also
carrying an inline transform that could serve as a fallback. -/
def namedVar : Variable :=
  { name := "ns", transformTemplate := "nope", transform := some { emptyValue := "-A" } }

/-- A named transform and a configuration that contains it. -/
def nsTemplate : TransformTemplate := { description := "ns", transform := some { emptyValue := "-A" } }

/-- Configuration holding the named transform `k8s-ns`. -/
def cfg1 : Config := { transformTemplates := [("k8s-ns", nsTemplate)] }

/-- Variable referencing the named transform present in `cfg1`. -/
def namedOkVar : Variable := { name := "ns", transformTemplate := "k8s-ns" }

/-- C1. The claim asserts that an empty raw value with a transform present but
an empty `empty_value` resolves to the empty string and never to the default.
On the code the default fallback is not guarded by the absence of a
transform: here the transform is present (`value_pattern` set, `empty_value`
empty) and the empty raw value resolves to the variable's default
`"fallback"`, not to the empty string. -/
theorem C1_counterexample :
    c1Var.transform = some { valuePattern := "vp" } ∧
    c1Var.defaultValue = "fallback" ∧ ("fallback" : String) ≠ "" ∧
    processVariable litEngine c1Var "" [] cfg0 = .ok "fallback" :=
  ⟨rfl, rfl, by decide, rfl⟩

/-- C1 (amended): for a non-computed, non-boolean variable with an empty raw
value whose resolved transform is present but has an empty `empty_value`
field, `processVariable` resolves the variable to its default value — the
default fallback is reached even when a transform exists, and the result is
the empty string only when the default itself is empty. -/
theorem C1_empty_transform_default_fallback (E : TemplateEngine) (v : Variable)
    (allValues : List (String × String)) (cfg : Config) (t : Transform)
    (hc : v.computed = false) (hb : v.type ≠ "boolean")
    (ht : resolveTransform v cfg = .ok (some t)) (he : t.emptyValue = "") :
    processVariable E v "" allValues cfg = .ok v.defaultValue := by
  unfold processVariable
  rw [ht]
  simp [hc, hb, he]

/-- C1 witness: the amended theorem evaluated at `c1Var`. -/
theorem C1_witness : processVariable litEngine c1Var "" [] cfg0 = .ok c1Var.defaultValue :=
  C1_empty_transform_default_fallback litEngine c1Var [] cfg0 { valuePattern := "vp" }
    rfl (by decide) rfl rfl

/-- C4. The claim asserts that a boolean variable with no transform resolves
to the empty string for both truthy and falsy raw values, never to the raw
value. On the code the boolean branch sits inside the `transform != nil`
block: with no transform the truthy raw value `"yes"` passes through
verbatim. -/
theorem C4_counterexample :
    boolVar.type = "boolean" ∧ boolVar.transform = none ∧ boolVar.transformTemplate = "" ∧
    processVariable litEngine boolVar "yes" [] cfg0 = .ok "yes" :=
  ⟨rfl, rfl, rfl, rfl⟩

/-- C4 (amended): for a non-computed boolean-typed variable whose resolved
transform is present, the raw value is truthy exactly when it case-sensitively
equals "true", "yes" or "1"; truthy resolves to the transform's `true_value`
and anything else to its `false_value`. When no transform resolves, the
boolean branch is skipped entirely and the variable follows the plain path:
the default value for an empty raw value and the raw value itself
otherwise. -/
theorem C4_boolean_transform_dispatch (E : TemplateEngine) (v : Variable) (value : String)
    (allValues : List (String × String)) (cfg : Config) :
    (∀ t, v.computed = false → resolveTransform v cfg = .ok (some t) → v.type = "boolean" →
      processVariable E v value allValues cfg =
        .ok (if value = "true" ∨ value = "yes" ∨ value = "1" then t.trueValue else t.falseValue)) ∧
    (resolveTransform v cfg = .ok none → v.type = "boolean" →
      processVariable E v value allValues cfg =
        .ok (if value = "" then v.defaultValue else value)) := by
  constructor
  · intro t hc ht hb
    unfold processVariable
    rw [ht]
    simp [hc, hb]
  · intro ht _hb
    unfold processVariable
    rw [ht]
    by_cases hv : value = "" <;> simp [hv]

/-- C4 witness: the amended theorem evaluated at `boolTVar` (transform
present, truthy raw value) and `boolVar` (no transform, truthy raw value). -/
theorem C4_witness :
    processVariable litEngine boolTVar "1" [] cfg0 = .ok "-v" ∧
    processVariable litEngine boolVar "yes" [] cfg0 = .ok "yes" :=
  ⟨((C4_boolean_transform_dispatch litEngine boolTVar "1" [] cfg0).1
      { trueValue := "-v", falseValue := "" } rfl rfl rfl).trans (by simp),
   ((C4_boolean_transform_dispatch litEngine boolVar "yes" [] cfg0).2 rfl rfl).trans (by simp)⟩

/-- C5: a nonempty named-transform reference is looked up in the config's
named-transform map and its absence makes `processVariable` fail with the
transform-template-not-found error — never falling back to the inline
transform; with no named reference the inline transform (possibly absent) is
used directly. -/
theorem C5_named_transform_resolution (E : TemplateEngine) (v : Variable) (value : String)
    (allValues : List (String × String)) (cfg : Config) :
    (v.transformTemplate ≠ "" → lookupMap cfg.transformTemplates v.transformTemplate = none →
      processVariable E v value allValues cfg =
        .error (.transformTemplateNotFound v.transformTemplate)) ∧
    (∀ td, v.transformTemplate ≠ "" → lookupMap cfg.transformTemplates v.transformTemplate = some td →
      resolveTransform v cfg = .ok td.transform) ∧
    (v.transformTemplate = "" → resolveTransform v cfg = .ok v.transform) := by
  refine ⟨?_, ?_, ?_⟩
  · intro h hl
    have ht : resolveTransform v cfg = .error (.transformTemplateNotFound v.transformTemplate) := by
      unfold resolveTransform
      simp [h, hl]
    unfold processVariable
    rw [ht]
  · intro td h hl
    unfold resolveTransform
    simp [h, hl]
  · intro h
    unfold resolveTransform
    simp [h]

/-- C5 witness: a missing named transform is fatal even though `namedVar`
carries an inline transform; a present named transform and an absent named
reference resolve as stated. -/
theorem C5_witness :
    processVariable litEngine namedVar "x" [] cfg0 = .error (.transformTemplateNotFound "nope") ∧
    resolveTransform namedOkVar cfg1 = .ok nsTemplate.transform ∧
    resolveTransform plainVar cfg0 = .ok plainVar.transform :=
  ⟨(C5_named_transform_resolution litEngine namedVar "x" [] cfg0).1 (by decide) rfl,
   (C5_named_transform_resolution litEngine namedOkVar "" [] cfg1).2.1 nsTemplate (by decide) rfl,
   (C5_named_transform_resolution litEngine plainVar "" [] cfg0).2.2 rfl⟩

/-- C9: a variable with no named-transform reference and no inline transform
and a nonempty raw value resolves to the raw value exactly (identity
pass-through). -/
theorem C9_identity_passthrough (E : TemplateEngine) (v : Variable) (value : String)
    (allValues : List (String × String)) (cfg : Config)
    (h1 : v.transformTemplate = "") (h2 : v.transform = none) (h3 : value ≠ "") :
    processVariable E v value allValues cfg = .ok value := by
  have ht : resolveTransform v cfg = .ok none := by
    unfold resolveTransform
    simp [h1, h2]
  unfold processVariable
  rw [ht]
  simp [h3]

/-- C9 witness: identity pass-through evaluated at `plainVar` and the raw
value "Bob". -/
theorem C9_witness : processVariable litEngine plainVar "Bob" [] cfg0 = .ok "Bob" :=
  C9_identity_passthrough litEngine plainVar "Bob" [] cfg0 rfl rfl (by decide)

/-- Transform resolution reads only the named reference and the inline
transform, so it is invariant under changes to the `computed` flag. -/
theorem resolveTransform_set_computed (v : Variable) (cfg : Config) (b : Bool) :
    resolveTransform { v with computed := b } cfg = resolveTransform v cfg := by
  cases v
  rfl

/-- Computed variable whose resolved transform carries a (directive-free)
compose expression. -/
def compVar : Variable :=
  { name := "resource", computed := true, transform := some { compose := "pod-my-pod" } }

/-- Computed variable whose resolved transform has an empty compose field. -/
def compEmptyVar : Variable :=
  { name := "c", computed := true, transform := some { emptyValue := "e" } }

/-- C6: for a computed variable whose resolved transform has a nonempty
compose field, the resolved value is the compose expression rendered against
the entire raw-value map, with a parse or render failure surfaced as a fatal
template error; when the compose field is empty the variable is evaluated
exactly as if it were not computed, without error. -/
theorem C6_computed_compose_rendering (E : TemplateEngine) (v : Variable) (value : String)
    (allValues : List (String × String)) (cfg : Config) (t : Transform)
    (hc : v.computed = true) (ht : resolveTransform v cfg = .ok (some t)) :
    (t.compose ≠ "" →
      processVariable E v value allValues cfg =
        match E.render t.compose allValues with
        | .error msg => .error (.templateError msg)
        | .ok r => .ok r) ∧
    (t.compose = "" →
      processVariable E v value allValues cfg =
        processVariable E { v with computed := false } value allValues cfg) := by
  constructor
  · intro h
    unfold processVariable
    rw [ht]
    simp [hc, h]
  · intro h
    have ht2 : resolveTransform { v with computed := false } cfg = .ok (some t) := by
      rw [resolveTransform_set_computed]
      exact ht
    unfold processVariable
    rw [ht, ht2]
    simp [hc, h]

/-- C6 witness: the theorem evaluated at `compVar` (nonempty compose, rendered
against the raw map) and at `compEmptyVar` (empty compose falls through to
the non-computed path). -/
theorem C6_witness :
    processVariable litEngine compVar "" [] cfg0 = .ok "pod-my-pod" ∧
    processVariable litEngine compEmptyVar "" [] cfg0 =
      processVariable litEngine { compEmptyVar with computed := false } "" [] cfg0 :=
  ⟨((C6_computed_compose_rendering litEngine compVar "" [] cfg0 { compose := "pod-my-pod" }
      rfl rfl).1 (by decide)).trans rfl,
   (C6_computed_compose_rendering litEngine compEmptyVar "" [] cfg0 { emptyValue := "e" }
      rfl rfl).2 rfl⟩

/-- Snippet with no variables. -/
def noVarSnippet : Snippet := { id := "nv", name := "nv", command := "echo hi" }

/-- One-variable snippet and a raw-value map for it. -/
def c3Snippet : Snippet := { id := "c3", name := "c3", command := "echo <n>!", vars := [plainVar] }

/-- Raw values supplying `n`. -/
def c3Vals : List (String × String) := [("n", "Bob")]

/-- C3: `ProcessTemplate` walks the snippet's variables in declared order;
with no variables the command is returned verbatim (unmatched placeholders
remain literally in the output); for a leading variable the raw value is
looked up by name (absent key treated as the empty string), resolved, and
every occurrence of the literal placeholder is replaced in the working
command before the remaining variables are processed. -/
theorem C3_process_template_iteration (E : TemplateEngine) (s : Snippet)
    (values : List (String × String)) (cfg : Config) :
    (s.vars = [] → ProcessTemplate E s values cfg = .ok s.command) ∧
    (∀ v rest, s.vars = v :: rest →
      ProcessTemplate E s values cfg =
        match processVariable E v (lookupStr values v.name) values cfg with
        | .error e => .error (.processingVariable v.name e)
        | .ok pv =>
          ProcessTemplate E
            { s with command := replaceAll s.command (placeholder v.name) pv, vars := rest }
            values cfg) ∧
    (∀ name, lookupMap values name = none → lookupStr values name = "") := by
  refine ⟨?_, ?_, ?_⟩
  · intro h
    unfold ProcessTemplate
    rw [h]
    rfl
  · intro v rest h
    unfold ProcessTemplate
    rw [h]
    rfl
  · intro name h
    unfold lookupStr
    rw [h]
    rfl

/-- C3 witness: the theorem evaluated at a snippet with no variables, at a
one-variable snippet (yielding the fully substituted command), and at an
absent raw-value key. -/
theorem C3_witness :
    ProcessTemplate litEngine noVarSnippet [] cfg0 = .ok noVarSnippet.command ∧
    ProcessTemplate litEngine c3Snippet c3Vals cfg0 = .ok "echo Bob!" ∧
    lookupStr c3Vals "missing" = "" :=
  ⟨(C3_process_template_iteration litEngine noVarSnippet [] cfg0).1 rfl,
   ((C3_process_template_iteration litEngine c3Snippet c3Vals cfg0).2.1 plainVar [] rfl).trans rfl,
   (C3_process_template_iteration litEngine c3Snippet c3Vals cfg0).2.2 "missing" rfl⟩

/-- Variable with the required flag cleared. -/
def clearRequired (v : Variable) : Variable := { v with required := false }

/-- Snippet with every variable's required flag cleared. -/
def clearRequiredS (s : Snippet) : Snippet := { s with vars := s.vars.map clearRequired }

/-- The resolution of a single variable never reads the required flag. -/
theorem processVariable_clearRequired (E : TemplateEngine) (v : Variable) (value : String)
    (allValues : List (String × String)) (cfg : Config) :
    processVariable E (clearRequired v) value allValues cfg =
      processVariable E v value allValues cfg := by
  cases v
  rfl

/-- Clearing the required flag preserves the variable's name. -/
theorem clearRequired_name (v : Variable) : (clearRequired v).name = v.name := rfl

/-- The substitution loop is invariant under clearing required flags. -/
theorem substLoop_clearRequired (E : TemplateEngine) (values : List (String × String))
    (cfg : Config) (l : List Variable) :
    ∀ command, substLoop E values cfg command (l.map clearRequired) =
      substLoop E values cfg command l := by
  induction l with
  | nil => intro command; rfl
  | cons v rest ih =>
    intro command
    simp only [List.map, substLoop, clearRequired_name, processVariable_clearRequired]
    cases processVariable E v (lookupStr values v.name) values cfg with
    | error e => rfl
    | ok pv => exact ih _

/-- Required variable and a snippet containing it. -/
def reqVar : Variable := { name := "x", required := true }

/-- Snippet whose only variable is required. -/
def reqSnippet : Snippet := { id := "t", name := "t", command := "run <x>", vars := [reqVar] }

/-- C2. The claim asserts that `ProcessTemplate` fails with a required-missing
error when a required variable's looked-up raw value is empty. On the code
`ProcessTemplate` performs no validation at all: with `reqVar` required and
an empty raw-value map, resolution succeeds and returns the substituted
command `"run "` instead of an error. -/
theorem C2_counterexample :
    reqVar.required = true ∧ lookupStr [] reqVar.name = "" ∧
    ProcessTemplate litEngine reqSnippet [] cfg0 = .ok "run " :=
  ⟨rfl, rfl, rfl⟩

/-- C2 (amended): a required variable with an empty value makes `Validate`
fail with the required-missing error naming the variable, but the resolution
path never checks the required flag: `ProcessTemplate` is invariant under
clearing every required flag, so it resolves required-and-empty variables
like any others (default or transform path) and returns a full command.
Required enforcement happens only in callers that run `Validate` /
`ValidateWithConfig` before resolution. -/
theorem C2_required_enforced_by_validate_not_resolution :
    (∀ (R : RegexOracle) (v : Variable), v.required = true →
      Validate R v "" = .error (.requiredMissing v.name)) ∧
    (∀ (E : TemplateEngine) (s : Snippet) (values : List (String × String)) (cfg : Config),
      ProcessTemplate E (clearRequiredS s) values cfg = ProcessTemplate E s values cfg) := by
  constructor
  · intro R v h
    unfold Validate
    simp [h]
  · intro E s values cfg
    unfold ProcessTemplate clearRequiredS
    exact substLoop_clearRequired E values cfg s.vars s.command

/-- C2 witness: the amended theorem evaluated at `reqVar` and `reqSnippet`. -/
theorem C2_witness :
    Validate trivOracle reqVar "" = .error (.requiredMissing reqVar.name) ∧
    ProcessTemplate litEngine (clearRequiredS reqSnippet) [] cfg0 =
      ProcessTemplate litEngine reqSnippet [] cfg0 :=
  ⟨(C2_required_enforced_by_validate_not_resolution).1 trivOracle reqVar rfl,
   (C2_required_enforced_by_validate_not_resolution).2 litEngine reqSnippet [] cfg0⟩

/-- Required variable whose enum list contains the empty string. -/
def enumReqVar : Variable :=
  { name := "e", required := true, validation := some { enum := ["", "x"] } }

/-- Non-required variable with an enum rule. -/
def envVar : Variable := { name := "env", validation := some { enum := ["dev", "prod"] } }

/-- C7. The claim asserts that with a nonempty enum list `Validate` succeeds
exactly when the value equals a listed option. On the code the required check
runs first: `enumReqVar` lists the empty string as an allowed option, yet the
empty value fails with the required-missing error (and not with an enum
mismatch). -/
theorem C7_counterexample :
    enumReqVar.validation = some { enum := ["", "x"] } ∧
    ("" ∈ (["", "x"] : List String)) ∧
    Validate trivOracle enumReqVar "" = .error (.requiredMissing "e") :=
  ⟨rfl, by decide, rfl⟩

/-- C7 (amended): with a nonempty enum list, a required variable with an
empty value fails first with the required-missing error even when the empty
string is listed; in every other case `Validate` succeeds exactly when the
value equals one listed option and otherwise fails with the enum-mismatch
error — the enum block returns in both cases, so no range or pattern rule is
ever checked on that call and an enum failure is never accompanied by a
range or pattern error. -/
theorem C7_enum_short_circuit (R : RegexOracle) (v : Variable) (val : Validation) (value : String)
    (hv : v.validation = some val) (he : val.enum ≠ []) :
    (v.required = true ∧ value = "" → Validate R v value = .error (.requiredMissing v.name)) ∧
    (¬(v.required = true ∧ value = "") →
      (value ∈ val.enum → Validate R v value = .ok ()) ∧
      (value ∉ val.enum → Validate R v value = .error (.enumMismatch v.name val.enum))) := by
  constructor
  · intro h
    unfold Validate
    simp [h.1, h.2]
  · intro h
    constructor
    · intro hm
      unfold Validate
      rw [if_neg h, hv]
      simp [he, hm]
    · intro hm
      unfold Validate
      rw [if_neg h, hv]
      simp [he, hm]

/-- C7 witness: the amended theorem evaluated at `envVar` with a listed and an
unlisted value, and at `enumReqVar` with the empty value. -/
theorem C7_witness :
    Validate trivOracle envVar "dev" = .ok () ∧
    Validate trivOracle envVar "local" = .error (.enumMismatch "env" ["dev", "prod"]) ∧
    Validate trivOracle enumReqVar "" = .error (.requiredMissing "e") :=
  ⟨((C7_enum_short_circuit trivOracle envVar { enum := ["dev", "prod"] } "dev" rfl (by decide)).2
      (by decide)).1 (by decide),
   ((C7_enum_short_circuit trivOracle envVar { enum := ["dev", "prod"] } "local" rfl (by decide)).2
      (by decide)).2 (by decide),
   (C7_enum_short_circuit trivOracle enumReqVar { enum := ["", "x"] } "" rfl (by decide)).1
      (by decide)⟩

/-- Variable with a two-element numeric range rule. -/
def portVar : Variable := { name := "port", validation := some { range := [1, 65535] } }

/-- C8. The claim asserts that a value failing to parse as an integer is
rejected, and in particular that non-integer text is rejected even when in
range lexically. The Go code scans with `fmt.Sscanf(value, "%d", &num)`,
which ignores unconsumed trailing input: the non-integer text `"80abc"`
scans as 80 and `Validate` accepts it. -/
theorem C8_counterexample :
    portVar.validation = some { range := [1, 65535] } ∧
    scanInt "80abc" = some 80 ∧
    Validate trivOracle portVar "80abc" = .ok () :=
  ⟨rfl, rfl, rfl⟩

/-- C8 (amended): for a variable whose only rule is a two-element numeric
range and a nonempty value, `Validate` succeeds exactly when `Sscanf` can
scan a leading integer from the value (scanner whitespace then an optional
sign and digits, trailing input ignored, the signed result required to fit
Go's 64-bit `int`) and that integer lies within the inclusive bounds; a scan
failure — no leading digits, a leading newline, or 64-bit overflow — fails
with the not-a-number error, and a scanned but out-of-bounds integer with
the range error. -/
theorem C8_range_integer_scan (R : RegexOracle) (v : Variable) (val : Validation) (value : String)
    (lo hi : Int) (hv : v.validation = some val) (henum : val.enum = [])
    (hpat : val.pattern = "") (hr : val.range = [lo, hi]) (hne : value ≠ "") :
    (scanInt value = none → Validate R v value = .error (.notANumber v.name)) ∧
    (∀ n, scanInt value = some n →
      (lo ≤ n ∧ n ≤ hi → Validate R v value = .ok ()) ∧
      (n < lo ∨ hi < n → Validate R v value = .error (.rangeInvalid v.name lo hi))) := by
  have hreq : ¬(v.required = true ∧ value = "") := by simp [hne]
  have hps : patternStep R v val value = .ok () := by
    unfold patternStep
    simp [hpat]
  have hrs_def : rangeStep v val value =
      match scanInt value with
      | none => .error (.notANumber v.name)
      | some n => if n < lo ∨ hi < n then .error (.rangeInvalid v.name lo hi) else .ok () := by
    unfold rangeStep
    rw [hr]
    simp [hne]
  constructor
  · intro hs
    have hrs : rangeStep v val value = .error (.notANumber v.name) := by
      rw [hrs_def, hs]
    unfold Validate
    rw [if_neg hreq, hv]
    simp [henum, hrs]
  · intro n hsome
    constructor
    · intro hin
      have hcond : ¬(n < lo ∨ hi < n) := by omega
      have hrs : rangeStep v val value = .ok () := by
        rw [hrs_def, hsome]
        exact if_neg hcond
      unfold Validate
      rw [if_neg hreq, hv]
      simp [henum, hrs, hps]
    · intro hcond
      have hrs : rangeStep v val value = .error (.rangeInvalid v.name lo hi) := by
        rw [hrs_def, hsome]
        exact if_pos hcond
      unfold Validate
      rw [if_neg hreq, hv]
      simp [henum, hrs]

/-- C8 witness: the amended theorem evaluated at `portVar` with an in-range
value, an out-of-range value, a non-numeric value, and a literal that
overflows Go's 64-bit `int` (a scan failure, hence not-a-number). -/
theorem C8_witness :
    Validate trivOracle portVar "8080" = .ok () ∧
    Validate trivOracle portVar "70000" = .error (.rangeInvalid "port" 1 65535) ∧
    Validate trivOracle portVar "abc" = .error (.notANumber "port") ∧
    Validate trivOracle portVar "99999999999999999999" = .error (.notANumber "port") :=
  ⟨((C8_range_integer_scan trivOracle portVar { range := [1, 65535] } "8080" 1 65535
      rfl rfl rfl rfl (by decide)).2 8080 rfl).1 (by decide),
   ((C8_range_integer_scan trivOracle portVar { range := [1, 65535] } "70000" 1 65535
      rfl rfl rfl rfl (by decide)).2 70000 rfl).2 (by decide),
   (C8_range_integer_scan trivOracle portVar { range := [1, 65535] } "abc" 1 65535
      rfl rfl rfl rfl (by decide)).1 rfl,
   (C8_range_integer_scan trivOracle portVar { range := [1, 65535] } "99999999999999999999"
      1 65535 rfl rfl rfl rfl (by decide)).1 rfl⟩

/-- The numeric-range block accepts every empty value. -/
theorem rangeStep_empty_value (v : Variable) (val : Validation) :
    rangeStep v val "" = .ok () := by
  unfold rangeStep
  split <;> simp

/-- The pattern block accepts every empty value. -/
theorem patternStep_empty_value (R : RegexOracle) (v : Variable) (val : Validation) :
    patternStep R v val "" = .ok () := by
  unfold patternStep
  simp

/-- C10: on the empty value, `ValidateWithConfig` returns exactly the result
of local `Validate` — the regex-type compile check and the type-level second
pass are both skipped — and that local result can only fail with the
required-missing or the enum-mismatch error. -/
theorem C10_empty_value_local_only (R : RegexOracle) (v : Variable) (cfg : Config) :
    ValidateWithConfig R v "" cfg = Validate R v "" ∧
    (∀ e, Validate R v "" = .error e →
      (∃ n, e = .requiredMissing n) ∨ ∃ n l, e = .enumMismatch n l) := by
  constructor
  · unfold ValidateWithConfig
    cases h : Validate R v "" with
    | error e => rfl
    | ok u => cases u; simp
  · intro e h
    unfold Validate at h
    by_cases hreq : v.required = true ∧ ("" : String) = ""
    · rw [if_pos hreq] at h
      simp only [Except.error.injEq] at h
      exact Or.inl ⟨v.name, h.symm⟩
    · rw [if_neg hreq] at h
      cases hval : v.validation with
      | none =>
        rw [hval] at h
        simp at h
      | some val =>
        rw [hval] at h
        dsimp only at h
        by_cases he : val.enum ≠ []
        · rw [if_pos he] at h
          by_cases hm : ("" : String) ∈ val.enum
          · rw [if_pos hm] at h
            simp at h
          · rw [if_neg hm] at h
            simp only [Except.error.injEq] at h
            exact Or.inr ⟨v.name, val.enum, h.symm⟩
        · rw [if_neg he] at h
          rw [rangeStep_empty_value] at h
          simp [patternStep_empty_value] at h

/-- C10 witness: the theorem evaluated at `enumReqVar` (whose empty value
fails the required check) and the empty configuration. -/
theorem C10_witness :
    ValidateWithConfig trivOracle enumReqVar "" cfg0 = Validate trivOracle enumReqVar "" ∧
    ((∃ n, PErr.requiredMissing "e" = PErr.requiredMissing n) ∨
      ∃ n l, PErr.requiredMissing "e" = PErr.enumMismatch n l) :=
  ⟨(C10_empty_value_local_only trivOracle enumReqVar cfg0).1,
   (C10_empty_value_local_only trivOracle enumReqVar cfg0).2 (.requiredMissing "e") rfl⟩

end CmdSnippets
